import Mathlib

/-!
Shallow embedding of the group-moderation bot (`src/bot.py`) and proofs
about its policy components: the warning ledger, permission lock
controller, countdown tracker, content filter table, banned-word censor
and broadcast fan-out.

Conventions: Firestore documents become explicit state values passed in
and out; fallible chat platform calls become explicit outcome
parameters; Python `int` becomes `Int`; the Python `str.lower` and
`str.strip` become `lower_str` and `strip_str` over the character
list; the Python substring test `a in b` becomes `a.data <:+: b.data`.
-/

namespace Bot

/-- Python `str.lower`, character by character (ASCII case fold). -/
def lower_str (s : String) : String := ⟨s.data.map Char.toLower⟩

/-- Python `str.strip`: drop leading and trailing whitespace. -/
def strip_str (s : String) : String :=
  ⟨((s.data.dropWhile Char.isWhitespace).reverse.dropWhile Char.isWhitespace).reverse⟩

/-- The per-(group,user) warning store: group id and user id to the
persisted `warnings` field (0 when the document is absent, as in
`get_warn_count`). -/
def Store := Int → Int → Int

/-- Model of `get_warn_count` (bot.py:90-99), success path: read the stored
`warnings` field, defaulting to 0 for an absent document (absence is
modelled as a stored 0). -/
def get_warn_count (s : Store) (g u : Int) : Int := s g u

/-- Write the `warnings` field of the (g,u) document. -/
def set_warn (s : Store) (g u v : Int) : Store :=
  fun g' u' => if g' = g ∧ u' = u then v else s g' u'

/-- Model of `update_warn_count` (bot.py:101-113), success path:
`new_warnings = max(0, current_warnings + change)`, persisted with
`ref.set`, and returned. -/
def update_warn_count (s : Store) (g u change : Int) : Store × Int :=
  let current_warnings := get_warn_count s g u
  let new_warnings := max 0 (current_warnings + change)
  (set_warn s g u new_warnings, new_warnings)

/-- Model of `warn_user` (bot.py:488-521), success path after the admin and
owner checks: add one warning; if the new count reaches 3, ban
(returned flag `true`) and reset the count by subtracting it. -/
def warn_user (s : Store) (g u : Int) : Store × Bool :=
  let r := update_warn_count s g u 1
  if 3 ≤ r.2 then
    ((update_warn_count r.1 g u (-r.2)).1, true)
  else
    (r.1, false)

/-- Model of `ban_user` (bot.py:556-577), success path: after banning, remove
all warnings with `update_warn_count(g, u, -get_warn_count(g, u))`. -/
def ban_user (s : Store) (g u : Int) : Store :=
  (update_warn_count s g u (-(get_warn_count s g u))).1

/-- Apply a sequence of `update_warn_count` deltas to one (g,u). -/
def apply_adjusts (s : Store) (g u : Int) (ds : List Int) : Store :=
  ds.foldl (fun s' d => (update_warn_count s' g u d).1) s

/-- Model of `get_warn_count` with the outcome of the store read explicit
(bot.py:94-99): a successful read yields the document (absent or its
`warnings` field); a failed read is logged and the function returns 0. -/
def get_warn_count_io (read : Except String (Option Int)) : Int :=
  match read with
  | Except.ok (some v) => v
  | Except.ok none => 0
  | Except.error _ => 0

/-- Model of `update_warn_count` with the outcome of the store write explicit
(bot.py:105-113): on a successful `ref.set` the clamped new count is
returned; on a failed write the error is logged and the function
returns the prior count `current_warnings`. -/
def update_warn_count_io (current change : Int) (write : Except String Unit) : Int :=
  match write with
  | Except.ok _ => max 0 (current + change)
  | Except.error _ => current

theorem get_set_warn_same (s : Store) (g u v : Int) :
    get_warn_count (set_warn s g u v) g u = v := by
  simp [get_warn_count, set_warn]

theorem apply_adjusts_nonneg (g u : Int) (ds : List Int) :
    ∀ s : Store, 0 ≤ get_warn_count s g u →
      0 ≤ get_warn_count (apply_adjusts s g u ds) g u := by
  induction ds with
  | nil => intro s hs; simpa [apply_adjusts] using hs
  | cons d ds ih =>
      intro s _
      have h1 : 0 ≤ get_warn_count (update_warn_count s g u d).1 g u := by
        simp [update_warn_count, get_set_warn_same, le_max_left]
      simpa [apply_adjusts] using ih _ h1

theorem update_warn_ret (s : Store) (g u d : Int) :
    (update_warn_count s g u d).2 = max 0 (get_warn_count s g u + d) := rfl

theorem update_warn_get (s : Store) (g u d : Int) :
    get_warn_count (update_warn_count s g u d).1 g u =
      max 0 (get_warn_count s g u + d) := by
  simp [update_warn_count, get_set_warn_same]

theorem warn_user_low (s : Store) (g u : Int)
    (h2 : ¬ 3 ≤ (update_warn_count s g u 1).2) :
    warn_user s g u = ((update_warn_count s g u 1).1, false) := by
  simp [warn_user, h2]

theorem warn_user_high (s : Store) (g u : Int)
    (h2 : 3 ≤ (update_warn_count s g u 1).2) :
    warn_user s g u =
      ((update_warn_count (update_warn_count s g u 1).1 g u
          (-(update_warn_count s g u 1).2)).1, true) := by
  simp [warn_user, h2]

/-- C1: from a zero warning count, three consecutive warns issue
exactly one ban (on the third) and leave the stored count at 0. -/
theorem three_warns_ban_once_reset (s : Store) (g u : Int)
    (h : get_warn_count s g u = 0) :
    (warn_user s g u).2 = false ∧
    (warn_user (warn_user s g u).1 g u).2 = false ∧
    (warn_user (warn_user (warn_user s g u).1 g u).1 g u).2 = true ∧
    get_warn_count (warn_user (warn_user (warn_user s g u).1 g u).1 g u).1 g u = 0 := by
  have c1 : (update_warn_count s g u 1).2 = 1 := by
    rw [update_warn_ret, h]; decide
  have hw1 : warn_user s g u = ((update_warn_count s g u 1).1, false) :=
    warn_user_low s g u (by rw [c1]; norm_num)
  have g1 : get_warn_count (warn_user s g u).1 g u = 1 := by
    rw [hw1]; rw [update_warn_get, h]; decide
  have c2 : (update_warn_count (warn_user s g u).1 g u 1).2 = 2 := by
    rw [update_warn_ret, g1]; decide
  have hw2 : warn_user (warn_user s g u).1 g u =
      ((update_warn_count (warn_user s g u).1 g u 1).1, false) :=
    warn_user_low _ g u (by rw [c2]; norm_num)
  have g2 : get_warn_count (warn_user (warn_user s g u).1 g u).1 g u = 2 := by
    rw [hw2]; rw [update_warn_get, g1]; decide
  have c3 : (update_warn_count (warn_user (warn_user s g u).1 g u).1 g u 1).2 = 3 := by
    rw [update_warn_ret, g2]; decide
  have hw3 : warn_user (warn_user (warn_user s g u).1 g u).1 g u =
      ((update_warn_count
          (update_warn_count (warn_user (warn_user s g u).1 g u).1 g u 1).1 g u
          (-(update_warn_count (warn_user (warn_user s g u).1 g u).1 g u 1).2)).1, true) :=
    warn_user_high _ g u (by rw [c3])
  have g3 : get_warn_count
      (update_warn_count (warn_user (warn_user s g u).1 g u).1 g u 1).1 g u = 3 := by
    rw [update_warn_get, g2]; decide
  refine ⟨by rw [hw1], by rw [hw2], by rw [hw3], ?_⟩
  rw [hw3]
  rw [update_warn_get, g3, c3]
  norm_num

theorem three_warns_ban_once_reset_witness :
    (warn_user (fun _ _ => 0) 0 0).2 = false ∧
    (warn_user (warn_user (fun _ _ => 0) 0 0).1 0 0).2 = false ∧
    (warn_user (warn_user (warn_user (fun _ _ => 0) 0 0).1 0 0).1 0 0).2 = true ∧
    get_warn_count (warn_user (warn_user (warn_user (fun _ _ => 0) 0 0).1 0 0).1 0 0).1 0 0 = 0 :=
  three_warns_ban_once_reset (fun _ _ => 0) 0 0 rfl

/-- C2: each adjust returns and persists `max 0 (current + delta)`, and
after any nonempty sequence of adjusts the stored count is ≥ 0. -/
theorem adjust_clamped_nonneg (s : Store) (g u : Int) :
    (∀ d : Int,
      (update_warn_count s g u d).2 = max 0 (get_warn_count s g u + d) ∧
      get_warn_count (update_warn_count s g u d).1 g u = max 0 (get_warn_count s g u + d)) ∧
    (∀ ds : List Int, ds ≠ [] →
      0 ≤ get_warn_count (apply_adjusts s g u ds) g u) := by
  constructor
  · intro d
    refine ⟨rfl, ?_⟩
    simp [update_warn_count, get_set_warn_same]
  · intro ds hne
    cases ds with
    | nil => exact absurd rfl hne
    | cons d ds' =>
        have h1 : 0 ≤ get_warn_count (update_warn_count s g u d).1 g u := by
          simp [update_warn_count, get_set_warn_same, le_max_left]
        simpa [apply_adjusts] using apply_adjusts_nonneg g u ds' _ h1

theorem adjust_clamped_nonneg_witness :
    (update_warn_count (fun _ _ => 1) 0 0 (-5)).2 = max 0 ((1 : Int) + (-5)) ∧
    0 ≤ get_warn_count (apply_adjusts (fun _ _ => 1) 0 0 [-5, 2, -7]) 0 0 :=
  ⟨((adjust_clamped_nonneg (fun _ _ => 1) 0 0).1 (-5)).1,
   (adjust_clamped_nonneg (fun _ _ => 1) 0 0).2 [-5, 2, -7] (by decide)⟩

/-- C9 counterexample: a failed store read during `get_warn_count` is
swallowed and reported as the successful count 0, and a failed store
write during `update_warn_count` is swallowed and reported as the
stale prior count (here 2) — the failure is not surfaced to the
caller as an operation failure. -/
theorem warn_store_failure_swallowed :
    get_warn_count_io (Except.error "store down") = 0 ∧
    update_warn_count_io 2 1 (Except.error "store down") = 2 :=
  ⟨rfl, rfl⟩

/-- C9 amended: when the store read fails, `get_warn_count` logs and
returns 0; when the store write fails, `update_warn_count` logs and
returns the prior count; neither surfaces the error to the caller. -/
theorem warn_store_failure_behavior (msg : String) (current change : Int) :
    get_warn_count_io (Except.error msg) = 0 ∧
    update_warn_count_io current change (Except.error msg) = current :=
  ⟨rfl, rfl⟩

/-- C10: a successful explicit ban adjusts the warning count by the
negation of its current value, so the stored count afterwards is 0. -/
theorem ban_resets_warnings (s : Store) (g u : Int) :
    get_warn_count (ban_user s g u) g u = 0 := by
  simp [ban_user, update_warn_count, get_set_warn_same]

/-! ## Countdown tracker (bot.py:158-256)

Instants are seconds since the epoch as `Int`; the per-group
`group_settings` countdown fields become an `Option Countdown`. -/

/-- The countdown fields stored in the group_settings document
(bot.py:183-187). -/
structure Countdown where
  countdown_name : String
  target_date : Int
  target_date_human : String
deriving DecidableEq, Repr

/-- Model of `set_countdown` (bot.py:174-187), after successful date parsing:
reject with "The target date must be in the future." when
`target_date < now` (returned flag `false`, store untouched),
otherwise persist the countdown fields (flag `true`). -/
def set_countdown (st : Option Countdown) (now : Int)
    (name human : String) (target : Int) : Option Countdown × Bool :=
  if target < now then
    (st, false)
  else
    (some ⟨name, target, human⟩, true)

/-- The outcome `check_countdown` reports. -/
inductive CdStatus where
  | NoneActive : CdStatus
  | Remaining (name : String) (days hours minutes seconds : Nat) : CdStatus
  | JustExpired (name : String) : CdStatus
deriving DecidableEq, Repr

/-- Model of `check_countdown` (bot.py:201-252): no stored countdown reports
none active; a stored countdown whose remaining time is ≤ 0 is
cleared (DELETE_FIELD) and reported as finished; otherwise the
remaining seconds are decomposed into days, hours, minutes and
seconds exactly as `timedelta` does for a positive duration. -/
def check_countdown (st : Option Countdown) (now : Int) :
    Option Countdown × CdStatus :=
  match st with
  | none => (none, CdStatus.NoneActive)
  | some c =>
    let remaining := c.target_date - now
    if remaining ≤ 0 then
      (none, CdStatus.JustExpired c.countdown_name)
    else
      let r := remaining.toNat
      (some c, CdStatus.Remaining c.countdown_name
        (r / 86400) (r % 86400 / 3600) (r % 86400 % 3600 / 60) (r % 86400 % 60))

/-- C4 counterexample: a target equal to the current instant is not
strictly in the future, yet `set_countdown` accepts it and persists
the record instead of returning the past-date error. -/
theorem set_countdown_accepts_now :
    set_countdown none 0 "Launch" "01/01/1970" 0 =
      (some ⟨"Launch", 0, "01/01/1970"⟩, true) := rfl

/-- C4 amended: for a target strictly before the current instant,
`set_countdown` reports the past-date error and leaves the store
unchanged; when no countdown was active, a subsequent
`check_countdown` reports none active. -/
theorem set_countdown_past_rejected (st : Option Countdown) (now : Int)
    (name human : String) (target : Int) (h : target < now) :
    set_countdown st now name human target = (st, false) ∧
    (st = none →
      (check_countdown (set_countdown st now name human target).1 now).2 =
        CdStatus.NoneActive) := by
  constructor
  · simp [set_countdown, h]
  · intro hst
    simp [set_countdown, h, hst, check_countdown]

theorem set_countdown_past_rejected_witness :
    set_countdown none 1 "Launch" "01/01/1970" 0 = (none, false) ∧
    (check_countdown (set_countdown none 1 "Launch" "01/01/1970" 0).1 1).2 =
      CdStatus.NoneActive :=
  ⟨(set_countdown_past_rejected none 1 "Launch" "01/01/1970" 0 (by decide)).1,
   (set_countdown_past_rejected none 1 "Launch" "01/01/1970" 0 (by decide)).2 rfl⟩

/-- C5: when the target of the stored countdown has passed, the first
status check reports it just expired and clears the record, and a
second status check at any later query reports none active. -/
theorem countdown_expiry_one_shot (c : Countdown) (now now' : Int)
    (h : c.target_date ≤ now) :
    (check_countdown (some c) now).2 = CdStatus.JustExpired c.countdown_name ∧
    (check_countdown (some c) now).1 = none ∧
    (check_countdown (check_countdown (some c) now).1 now').2 =
      CdStatus.NoneActive := by
  have hr : c.target_date - now ≤ 0 := by omega
  refine ⟨?_, ?_, ?_⟩ <;> simp [check_countdown, hr]

theorem countdown_expiry_one_shot_witness :
    (check_countdown (some ⟨"Launch", 5, "x"⟩) 7).2 = CdStatus.JustExpired "Launch" ∧
    (check_countdown (some ⟨"Launch", 5, "x"⟩) 7).1 = none ∧
    (check_countdown (check_countdown (some ⟨"Launch", 5, "x"⟩) 7).1 9).2 =
      CdStatus.NoneActive :=
  countdown_expiry_one_shot ⟨"Launch", 5, "x"⟩ 7 9 (by decide)

/-! ## Permission lock controller (bot.py:260-363)

The ten Telegram chat capabilities; a current snapshot may be wholly
absent (`current_chat.permissions` falsy, or the fetch failed) or have
individual capabilities unknown (`None`). -/

/-- The full permission set handed to `set_chat_permissions`
(bot.py:352). -/
structure ChatPerms where
  can_send_messages : Bool
  can_send_audios : Bool
  can_send_documents : Bool
  can_send_photos : Bool
  can_send_videos : Bool
  can_send_video_notes : Bool
  can_send_voice_notes : Bool
  can_send_polls : Bool
  can_send_other_messages : Bool
  can_add_web_page_previews : Bool
deriving DecidableEq, Repr

/-- The current chat permission snapshot with possibly-unknown
capabilities (bot.py:291-304). -/
structure PermSnapshot where
  can_send_messages : Option Bool
  can_send_audios : Option Bool
  can_send_documents : Option Bool
  can_send_photos : Option Bool
  can_send_videos : Option Bool
  can_send_video_notes : Option Bool
  can_send_voice_notes : Option Bool
  can_send_polls : Option Bool
  can_send_other_messages : Option Bool
  can_add_web_page_previews : Option Bool
deriving DecidableEq, Repr

/-- The baseline `new_perms` dictionary (bot.py:272-307): all-true when
no snapshot is available, otherwise the current value of each capability
with `None` replaced by the permissive default `true`. -/
def baseline_perms (snap : Option PermSnapshot) : ChatPerms :=
  match snap with
  | none => ⟨true, true, true, true, true, true, true, true, true, true⟩
  | some s =>
    ⟨s.can_send_messages.getD true,
     s.can_send_audios.getD true,
     s.can_send_documents.getD true,
     s.can_send_photos.getD true,
     s.can_send_videos.getD true,
     s.can_send_video_notes.getD true,
     s.can_send_voice_notes.getD true,
     s.can_send_polls.getD true,
     s.can_send_other_messages.getD true,
     s.can_add_web_page_previews.getD true⟩

/-- Model of `handle_lock_unlock` (bot.py:260-352): after the admin check, the
feature argument is lowercased, the baseline permissions are taken
from the current snapshot, the capabilities of the feature are set to
`not lock`, and an unrecognized feature is an error (no update). -/
def handle_lock_unlock (feature : String) (lock : Bool)
    (snap : Option PermSnapshot) : Option ChatPerms :=
  let new_perms := baseline_perms snap
  let target_value := !lock
  let feature_arg := lower_str feature
  if feature_arg = "all" then
    some ⟨target_value, target_value, target_value, target_value, target_value,
          target_value, target_value, target_value, target_value, target_value⟩
  else if feature_arg = "text" then
    some { new_perms with can_send_messages := target_value }
  else if feature_arg = "stickers" then
    some { new_perms with can_send_other_messages := target_value }
  else if feature_arg = "media" then
    some { new_perms with
           can_send_photos := target_value,
           can_send_videos := target_value,
           can_send_documents := target_value,
           can_send_audios := target_value,
           can_send_voice_notes := target_value,
           can_send_video_notes := target_value,
           can_send_other_messages := target_value }
  else if feature_arg = "images" then
    some { new_perms with can_send_photos := target_value }
  else if feature_arg = "audio" then
    some { new_perms with
           can_send_audios := target_value,
           can_send_voice_notes := target_value }
  else
    none

/-- C3: locking the "audio" feature sets exactly send-audio and
send-voice-notes to false; each of the other eight capabilities keeps
its value from the current snapshot, with `true` substituted for an
unknown value. -/
theorem audio_lock_frame (snap : Option PermSnapshot) :
    ∃ p : ChatPerms, handle_lock_unlock "audio" true snap = some p ∧
      p.can_send_audios = false ∧
      p.can_send_voice_notes = false ∧
      p.can_send_messages = ((snap.bind PermSnapshot.can_send_messages).getD true) ∧
      p.can_send_documents = ((snap.bind PermSnapshot.can_send_documents).getD true) ∧
      p.can_send_photos = ((snap.bind PermSnapshot.can_send_photos).getD true) ∧
      p.can_send_videos = ((snap.bind PermSnapshot.can_send_videos).getD true) ∧
      p.can_send_video_notes = ((snap.bind PermSnapshot.can_send_video_notes).getD true) ∧
      p.can_send_polls = ((snap.bind PermSnapshot.can_send_polls).getD true) ∧
      p.can_send_other_messages = ((snap.bind PermSnapshot.can_send_other_messages).getD true) ∧
      p.can_add_web_page_previews = ((snap.bind PermSnapshot.can_add_web_page_previews).getD true) := by
  refine ⟨{ baseline_perms snap with
            can_send_audios := false, can_send_voice_notes := false }, ?_, ?_⟩
  · simp only [handle_lock_unlock]
    rw [if_neg (by decide), if_neg (by decide), if_neg (by decide),
        if_neg (by decide), if_neg (by decide), if_pos (by decide)]
    rfl
  · cases snap with
    | none => simp [baseline_perms]
    | some s => simp [baseline_perms]

/-! ## Content filter table (bot.py:701-813)

The per-group `filters` subcollection becomes a list of
(document key, document) pairs; `stream` yields the documents in list
order. -/

/-- The reply payload a filter document stores (bot.py:718-735). -/
inductive FilterContent where
  | text (content : String) : FilterContent
  | sticker (file_id : String) : FilterContent
  | photo (file_id : String) : FilterContent
deriving DecidableEq, Repr

/-- A filter document: the original keyword plus its payload. -/
structure FilterDoc where
  keyword : String
  content : FilterContent
deriving DecidableEq, Repr

/-- Model of `set_filter` (bot.py:701-748), success path: the document key is
`keyword.lower().strip()` and `ref.set` overwrites any existing
document under that key. -/
def set_filter (fs : List (String × FilterDoc)) (keyword : String)
    (c : FilterContent) : List (String × FilterDoc) :=
  let key := strip_str (lower_str keyword)
  fs.filter (fun kv => kv.1 ≠ key) ++ [(key, ⟨keyword, c⟩)]

/-- Model of `handle_filters` (bot.py:776-813): lowercase the message text,
scan the filter documents of the group, and reply with the payload of the
first document whose lowercased keyword is a nonempty substring of
the message text; no match replies nothing. -/
def handle_filters (fs : List (String × FilterDoc)) (msg : String) :
    Option FilterContent :=
  let message_text := lower_str msg
  fs.findSome? (fun kv =>
    let keyword := lower_str kv.2.keyword
    if keyword ≠ "" ∧ keyword.data <:+: message_text.data then
      some kv.2.content
    else
      none)

theorem handle_filters_singleton (p : FilterContent) (m : String) :
    handle_filters [("hello", ⟨"hello", p⟩)] m =
      if "hello".data <:+: (lower_str m).data then some p else none := by
  by_cases h : "hello".data <:+: (lower_str m).data
  · simp only [handle_filters, List.findSome?]
    rw [if_pos ⟨by decide, h⟩, if_pos h]
  · simp only [handle_filters, List.findSome?]
    rw [if_neg (fun hc => h hc.2), if_neg h]

/-- C6: with a filter stored for keyword "hello", any message whose
case-folded text contains "hello" as a substring gets the stored
payload, and a message not containing it gets none; in particular
"well hello there" matches and "goodbye" does not. -/
theorem filter_hello_substring_match (p : FilterContent) (msg : String) :
    (("hello".data <:+: (lower_str msg).data) →
      handle_filters (set_filter [] "hello" p) msg = some p) ∧
    ((¬ ("hello".data <:+: (lower_str msg).data)) →
      handle_filters (set_filter [] "hello" p) msg = none) ∧
    handle_filters (set_filter [] "hello" p) "well hello there" = some p ∧
    handle_filters (set_filter [] "hello" p) "goodbye" = none := by
  have hs : set_filter [] "hello" p = [("hello", ⟨"hello", p⟩)] := rfl
  rw [hs]
  refine ⟨?_, ?_, ?_, ?_⟩
  · intro h; rw [handle_filters_singleton, if_pos h]
  · intro h; rw [handle_filters_singleton, if_neg h]
  · rw [handle_filters_singleton, if_pos (by decide)]
  · rw [handle_filters_singleton, if_neg (by decide)]

theorem filter_hello_substring_match_witness :
    handle_filters (set_filter [] "hello" (FilterContent.text "hi")) "Well Hello there" =
      some (FilterContent.text "hi") :=
  (filter_hello_substring_match (FilterContent.text "hi") "Well Hello there").1 (by decide)

/-! ## Banned-word censor (bot.py:426-483) -/

/-- The resolved role of the acting user for a group. -/
inductive Role where
  | Owner : Role
  | Admin : Role
  | Member : Role
deriving DecidableEq, Repr

/-- The decision of the censor for one message. -/
inductive CensorDecision where
  | Allow : CensorDecision
  | Delete (word : String) : CensorDecision
deriving DecidableEq, Repr

/-- The per-word test of bot.py:466: `if word and word in message_text`. -/
def word_hits (w message_text : String) : Bool :=
  decide (w ≠ "") && decide (w.data <:+: message_text.data)

/-- Model of `handle_banned_words` (bot.py:426-483): owner and admins are
exempt; otherwise the lowercased message is scanned against the
banned words of the group in stream order and the first nonempty word
occurring as a substring triggers deletion of the message. -/
def handle_banned_words (words : List String) (role : Role) (msg : String) :
    CensorDecision :=
  match role with
  | Role.Owner => CensorDecision.Allow
  | Role.Admin => CensorDecision.Allow
  | Role.Member =>
    let message_text := lower_str msg
    match words.find? (fun w => word_hits w message_text) with
    | some w => CensorDecision.Delete w
    | none => CensorDecision.Allow

theorem word_hits_iff (w mt : String) :
    word_hits w mt = true ↔ (w ≠ "" ∧ w.data <:+: mt.data) := by
  simp [word_hits]

/-- C7: banned-word evaluation always allows owner and admin messages;
for a member it deletes for the first stored word that is a nonempty
substring of the case-folded message and allows when no stored word
occurs. -/
theorem banned_word_policy (words : List String) (role : Role) (msg : String) :
    ((role = Role.Owner ∨ role = Role.Admin) →
      handle_banned_words words role msg = CensorDecision.Allow) ∧
    ((∀ w ∈ words, ¬ (w ≠ "" ∧ w.data <:+: (lower_str msg).data)) →
      handle_banned_words words Role.Member msg = CensorDecision.Allow) ∧
    (∀ pre w post, words = pre ++ w :: post →
      w ≠ "" → w.data <:+: (lower_str msg).data →
      (∀ v ∈ pre, ¬ (v ≠ "" ∧ v.data <:+: (lower_str msg).data)) →
      handle_banned_words words Role.Member msg = CensorDecision.Delete w) := by
  refine ⟨?_, ?_, ?_⟩
  · rintro (rfl | rfl) <;> rfl
  · intro hall
    have hf : words.find? (fun w => word_hits w (lower_str msg)) = none := by
      rw [List.find?_eq_none]
      intro x hx
      simpa [word_hits_iff] using hall x hx
    simp only [handle_banned_words, hf]
  · intro pre w post hw hne hinf hpre
    subst hw
    have hf : (pre ++ w :: post).find? (fun v => word_hits v (lower_str msg)) =
        some w := by
      induction pre with
      | nil =>
          rw [List.nil_append]
          exact List.find?_cons_of_pos (p := fun v => word_hits v (lower_str msg))
            post ((word_hits_iff _ _).2 ⟨hne, hinf⟩)
      | cons a pre' ih =>
          have ha : word_hits a (lower_str msg) = false := by
            cases hb : word_hits a (lower_str msg) with
            | false => rfl
            | true => exact absurd ((word_hits_iff _ _).1 hb) (hpre a (by simp))
          rw [List.cons_append,
              List.find?_cons_of_neg (p := fun v => word_hits v (lower_str msg)) _
                (by simp [ha])]
          exact ih (fun v hv => hpre v (by simp [hv]))
    simp only [handle_banned_words, hf]

theorem banned_word_policy_witness :
    handle_banned_words ["spam"] Role.Member "get rich spamnow" =
      CensorDecision.Delete "spam" ∧
    handle_banned_words ["spam"] Role.Admin "spamnow" = CensorDecision.Allow :=
  ⟨(banned_word_policy ["spam"] Role.Member "get rich spamnow").2.2
      [] "spam" [] rfl (by decide) (by decide) (by simp),
   (banned_word_policy ["spam"] Role.Admin "spamnow").1 (Or.inr rfl)⟩

/-! ## Broadcast fan-out (bot.py:817-879) -/

/-- Model of `is_owner` (bot.py:44-46). -/
def is_owner (owner_id user_id : Int) : Bool := user_id == owner_id

/-- The send loop of bot.py:848-867: skip a missing chat id (modelled
as "") and the invoking chat, then attempt each remaining target,
incrementing `sent_count` on success and `failed_count` on failure;
a failure never stops the loop. The outcome of each send is the `send_ok`
oracle. -/
def broadcast_send_loop (chats : List String) (source_chat_id : String)
    (send_ok : String → Bool) (acc : Nat × Nat) : Nat × Nat :=
  chats.foldl (fun counts chat_id =>
    if chat_id = "" ∨ chat_id = source_chat_id then counts
    else if send_ok chat_id then (counts.1 + 1, counts.2)
    else (counts.1, counts.2 + 1)) acc

/-- Model of `broadcast_message` (bot.py:817-879): a non-owner caller is
rejected before anything else (result `none`); the owner gets the
pair (sent_count, failed_count) from the send loop started at (0,0). -/
def broadcast_message (owner_id user_id : Int) (source_chat_id : String)
    (chats : List String) (send_ok : String → Bool) : Option (Nat × Nat) :=
  if !(is_owner owner_id user_id) then
    none
  else
    some (broadcast_send_loop chats source_chat_id send_ok (0, 0))

/-- The targets the loop actually attempts to send to. -/
def eligible_targets (chats : List String) (source_chat_id : String) :
    List String :=
  chats.filter (fun c => !(decide (c = "" ∨ c = source_chat_id)))

theorem eligible_cons_skip (c : String) (cs : List String) (source : String)
    (h : c = "" ∨ c = source) :
    eligible_targets (c :: cs) source = eligible_targets cs source := by
  rcases h with h | h <;> subst h <;> simp [eligible_targets, List.filter_cons]

theorem eligible_cons_keep (c : String) (cs : List String) (source : String)
    (h : ¬ (c = "" ∨ c = source)) :
    eligible_targets (c :: cs) source = c :: eligible_targets cs source := by
  push_neg at h
  simp [eligible_targets, List.filter_cons, h.1, h.2]

theorem broadcast_loop_counts (source : String) (ok : String → Bool) :
    ∀ (chats : List String) (a b : Nat),
      broadcast_send_loop chats source ok (a, b) =
        (a + ((eligible_targets chats source).filter (fun c => ok c)).length,
         b + ((eligible_targets chats source).filter (fun c => !(ok c))).length) := by
  intro chats
  induction chats with
  | nil => intro a b; simp [broadcast_send_loop, eligible_targets]
  | cons c cs ih =>
      intro a b
      by_cases h : c = "" ∨ c = source
      · have h1 : broadcast_send_loop (c :: cs) source ok (a, b) =
            broadcast_send_loop cs source ok (a, b) := by
          simp [broadcast_send_loop, h]
        rw [h1, ih, eligible_cons_skip c cs source h]
      · by_cases hok : ok c
        · have h1 : broadcast_send_loop (c :: cs) source ok (a, b) =
              broadcast_send_loop cs source ok (a + 1, b) := by
            simp [broadcast_send_loop, h, hok]
          rw [h1, ih, eligible_cons_keep c cs source h]
          simp [List.filter_cons, hok]
          omega
        · have h1 : broadcast_send_loop (c :: cs) source ok (a, b) =
              broadcast_send_loop cs source ok (a, b + 1) := by
            simp [broadcast_send_loop, h, hok]
          rw [h1, ih, eligible_cons_keep c cs source h]
          have hok' : ok c = false := by
            cases hb : ok c with
            | false => rfl
            | true => exact absurd hb hok
          simp [List.filter_cons, hok']
          omega

theorem filter_length_partition (ok : String → Bool) :
    ∀ l : List String,
      (l.filter (fun c => ok c)).length + (l.filter (fun c => !(ok c))).length =
        l.length := by
  intro l
  induction l with
  | nil => rfl
  | cons c cs ih =>
      by_cases hok : ok c <;> simp [hok] <;> omega

/-- C8: broadcast is owner-only — a non-owner caller gets `none`
(fixed rejection, no counts); for the owner every eligible target
(chat id present and different from the invoking chat) is attempted,
successes and failures are counted independently, and together they
cover all eligible targets, so one failure never aborts the rest. -/
theorem broadcast_owner_only_failure_isolated (owner_id user_id : Int)
    (source : String) (chats : List String) (ok : String → Bool) :
    (user_id ≠ owner_id →
      broadcast_message owner_id user_id source chats ok = none) ∧
    (user_id = owner_id →
      broadcast_message owner_id user_id source chats ok =
        some (((eligible_targets chats source).filter (fun c => ok c)).length,
              ((eligible_targets chats source).filter (fun c => !(ok c))).length) ∧
      ((eligible_targets chats source).filter (fun c => ok c)).length +
        ((eligible_targets chats source).filter (fun c => !(ok c))).length =
          (eligible_targets chats source).length) := by
  constructor
  · intro hne
    simp [broadcast_message, is_owner, hne]
  · intro heq
    subst heq
    refine ⟨?_, filter_length_partition ok _⟩
    simp only [broadcast_message, is_owner]
    rw [if_neg (by simp)]
    rw [broadcast_loop_counts source ok chats 0 0]
    simp

theorem broadcast_owner_only_failure_isolated_witness :
    broadcast_message 7 9 "src" ["a"] (fun _ => true) = none ∧
    broadcast_message 7 7 "src" ["a", "b", "c"] (fun c => !(c == "b")) =
      some (2, 1) := by
  constructor
  · exact (broadcast_owner_only_failure_isolated 7 9 "src" ["a"] (fun _ => true)).1
      (by decide)
  · have h := ((broadcast_owner_only_failure_isolated 7 7 "src" ["a", "b", "c"]
      (fun c => !(c == "b"))).2 rfl).1
    rw [h]
    rfl

end Bot
